import Mathlib

set_option linter.unusedVariables false

/-!
Shallow embedding of the KBMOD moving-object search core (C++ sources under
`src/kbmod/search/`) together with theorems settling the specification claims.

Conventions of the embedding:
* C++ `float`/`double` values are modelled as `ℚ`; `int`/`short` as `ℤ`;
  container sizes as `ℕ`.
* Functions that can `throw` are modelled as `Except String _`; the message is
  the C++ exception text.
* An out-of-bounds `std::vector` read (undefined behaviour in C++) is modelled
  by `List.getD _ default`.
* Collaborator code that lives in files of the repository that are not part of
  the given sources (`raw_image.cpp`, `layered_image.cpp`, `common.h`) enters
  as explicit parameters (see `SearchExt`) or is modelled from the spec where
  noted.
-/

/-- Modelled from the spec: the sentinel `NO_DATA` is defined in `common.h`,
which is not among the given sources; the spec (§3) describes it as a
designated sentinel value, e.g. −9999.99. Its exact value is irrelevant to the
claims below; it is only used as a fill value. -/
def NO_DATA : ℚ := -(999999 : ℚ) / 100

/-- Trajectory record (`common.h`, mirrored by the spec §3): start pixel
`(x, y)` (C++ `short`), velocity `(vx, vy)` (named `x_vel`/`y_vel` in the older
`KBMOSearch.cpp`), likelihood `lh`, `flux`, and `obs_count`. -/
structure Trajectory where
  x : ℤ
  y : ℤ
  vx : ℚ
  vy : ℚ
  lh : ℚ
  flux : ℚ
  obs_count : ℤ
deriving DecidableEq, Repr, Inhabited

/-- RawImage: a width × height grid of floats, row major (`raw_image.cpp`,
data model per spec §3). -/
structure RawImage where
  width : ℕ
  height : ℕ
  pixels : List ℚ
deriving DecidableEq, Repr, Inhabited

/-- LayeredImage: science/variance/mask layers plus an observation time
(`layered_image.cpp`; only the fields the claims touch are carried). The mask
layer is integer-valued (bit flags); the C++ stores it as floats and casts each
pixel with `static_cast<int>` when reading, the embedding carries the integer
values directly. -/
structure LayeredImage where
  width : ℕ
  height : ℕ
  science : List ℚ
  mask : List ℤ
  obstime : ℚ
deriving DecidableEq, Repr, Inhabited

/-- Number of pixels of a layer; layers share `width × height` (spec §3),
so `get_npixels()` is `width * height`. -/
def LayeredImage.get_npixels (img : LayeredImage) : ℕ := img.width * img.height

/-- ImageStack: an ordered sequence of LayeredImages
(`ImageStack.h` / `image_stack.cpp`). -/
structure ImageStack where
  images : List LayeredImage
deriving DecidableEq, Repr, Inhabited

/-- The `ImageStack(const std::vector<LayeredImage>&)` constructor
(`image_stack.cpp` line 5): it copies the vector and performs no validation. -/
def ImageStack.ofImages (imgs : List LayeredImage) : ImageStack := { images := imgs }

/-- `ImageStack::img_count`. -/
def ImageStack.img_count (s : ImageStack) : ℕ := s.images.length

/-- `ImageStack::get_width` (`ImageStack.h`): width of image 0, or 0 when the
stack is empty. -/
def ImageStack.get_width (s : ImageStack) : ℕ :=
  match s.images with
  | [] => 0
  | img :: _ => img.width

/-- `ImageStack::get_height` (`ImageStack.h`). -/
def ImageStack.get_height (s : ImageStack) : ℕ :=
  match s.images with
  | [] => 0
  | img :: _ => img.height

/-- `ImageStack::get_npixels` (`ImageStack.h`): `images[0].get_npixels()`,
or 0 when empty. -/
def ImageStack.get_npixels (s : ImageStack) : ℕ :=
  match s.images with
  | [] => 0
  | img :: _ => img.get_npixels

/-- `ImageStack::get_single_image` (`image_stack.cpp` lines 7-10). The C++
guard is `index < 0 || index > images.size()`; when `index = images.size()`
the guard passes and `images[index]` is an out-of-bounds read (undefined
behaviour), modelled by `getD _ default`. -/
def ImageStack.get_single_image (s : ImageStack) (index : ℤ) : Except String LayeredImage :=
  if index < 0 ∨ (s.images.length : ℤ) < index then .error "ImageStack index out of bounds."
  else .ok (s.images.getD index.toNat default)

/-- `ImageStack::get_obstime` (`image_stack.cpp` lines 12-15); same guard as
`get_single_image`. -/
def ImageStack.get_obstime (s : ImageStack) (index : ℤ) : Except String ℚ :=
  if index < 0 ∨ (s.images.length : ℤ) < index then .error "ImageStack index out of bounds."
  else .ok (s.images.getD index.toNat default).obstime

/-- `ImageStack::get_zeroed_time` (`image_stack.cpp` lines 17-20); same guard;
returns `obstime(index) - obstime(0)`. -/
def ImageStack.get_zeroed_time (s : ImageStack) (index : ℤ) : Except String ℚ :=
  if index < 0 ∨ (s.images.length : ℤ) < index then .error "ImageStack index out of bounds."
  else .ok ((s.images.getD index.toNat default).obstime - (s.images.getD 0 default).obstime)

/-- TrajectoryList state (`trajectory_list.h`): fixed capacity `max_size`, the
host buffer `cpu_list`, and the ownership flag `data_on_gpu`. -/
structure TrajectoryList where
  max_size : ℤ
  data_on_gpu : Bool
  cpu_list : List Trajectory
deriving DecidableEq, Repr, Inhabited

/-- `TrajectoryList::get_trajectory` (`trajectory_list.h` lines 29-33): index
guard first, then the accelerator-ownership guard. -/
def TrajectoryList.get_trajectory (tl : TrajectoryList) (index : ℤ) : Except String Trajectory :=
  if index < 0 ∨ tl.max_size < index then .error "Index out of bounds."
  else if tl.data_on_gpu then .error "Data on GPU"
  else .ok (tl.cpu_list.getD index.toNat default)

/-- `TrajectoryList::set_trajectory` (`trajectory_list.h` lines 35-39). The
updated state is only produced on success, so a failing call leaves the list
untouched. -/
def TrajectoryList.set_trajectory (tl : TrajectoryList) (index : ℤ) (new_value : Trajectory) :
    Except String TrajectoryList :=
  if index < 0 ∨ tl.max_size < index then .error "Index out of bounds."
  else if tl.data_on_gpu then .error "Data on GPU"
  else .ok { tl with cpu_list := tl.cpu_list.set index.toNat new_value }

/-- `TrajectoryList::get_list` (`trajectory_list.h` lines 41-44). -/
def TrajectoryList.get_list (tl : TrajectoryList) : Except String (List Trajectory) :=
  if tl.data_on_gpu then .error "Data on GPU" else .ok tl.cpu_list

/-- The comparator-induced order of `KBMOSearch::sortResults` (`KBMOSearch.cpp`
lines 563-566): the C++ sorts with the strict comparator
`[](trajectory a, trajectory b) { return b.lh < a.lh; }`, whose induced
non-strict order (a may precede b) is `b.lh ≤ a.lh`. -/
def trajCompLE (a b : Trajectory) : Prop := b.lh ≤ a.lh

instance : DecidableRel trajCompLE := fun a b => inferInstanceAs (Decidable (b.lh ≤ a.lh))

instance : IsTotal Trajectory trajCompLE := ⟨fun a b => le_total b.lh a.lh⟩

instance : IsTrans Trajectory trajCompLE := ⟨fun _ _ _ hab hbc => le_trans hbc hab⟩

/-- `KBMOSearch::sortResults` (`KBMOSearch.cpp` lines 563-566):
`__gnu_parallel::sort` with the comparator above. The comparator consults only
`lh`; the embedding fixes one comparator-consistent execution (a stable
insertion sort). -/
def sortResults (results : List Trajectory) : List Trajectory :=
  results.insertionSort trajCompLE

/-- The ordering claimed by the spec for the stored result list: lh
descending, ties broken by obs_count descending, then y, x, vx, vy
ascending. -/
def specResultLE (a b : Trajectory) : Prop :=
  b.lh < a.lh ∨ (a.lh = b.lh ∧
    (b.obs_count < a.obs_count ∨ (a.obs_count = b.obs_count ∧
      (a.y < b.y ∨ (a.y = b.y ∧
        (a.x < b.x ∨ (a.x = b.x ∧
          (a.vx < b.vx ∨ (a.vx = b.vx ∧ a.vy ≤ b.vy)))))))))

instance : DecidableRel specResultLE := fun a b => by
  unfold specResultLE
  infer_instance

/-- `KBMOSearch::get_results` (`KBMOSearch.cpp` lines 582-588). The C++ guard
`start + count >= results.size()` compares an `int` with `size_t`, so a
negative `start + count` wraps to a huge unsigned value and also triggers the
clamp; the clamp runs before the `start < 0` check, but the throw is
unconditional for negative `start`. -/
def get_results (results : List Trajectory) (start count : ℤ) : Except String (List Trajectory) :=
  let count2 := if start + count < 0 ∨ (results.length : ℤ) ≤ start + count then
      (results.length : ℤ) - start
    else count
  if start < 0 then .error "start must be 0 or greater"
  else .ok ((results.drop start.toNat).take count2.toNat)

/-- Concrete trajectories used in witnesses and counterexamples. -/
def tLowObs : Trajectory := { x := 0, y := 0, vx := 0, vy := 0, lh := 3, flux := 0, obs_count := 1 }

def tHighObs : Trajectory := { x := 0, y := 0, vx := 0, vy := 0, lh := 3, flux := 0, obs_count := 9 }

/-- C1 counterexample: on two results with equal `lh`, the sort keeps the
input order (the comparator only consults `lh`), so the output is not ordered
by the claimed tie-break key (obs_count descending would require the
`obs_count = 9` entry first). -/
theorem sortResults_not_spec_tiebreak :
    ¬ (sortResults [tLowObs, tHighObs]).Pairwise specResultLE := by
  decide

/-- C1 (amended): after sorting, the stored result list is a permutation of
the input that is totally ordered by `lh` descending; no tie-break on
(obs_count, y, x, vx, vy) is applied, equal-`lh` entries are in no specified
relative order. -/
theorem sortResults_sorted_lh_desc (results : List Trajectory) :
    (sortResults results).Sorted trajCompLE ∧ (sortResults results).Perm results := by
  exact ⟨List.sorted_insertionSort trajCompLE results, List.perm_insertionSort trajCompLE results⟩

/-- Stack of two one-pixel images used as concrete input for the index-guard
divergence. -/
def twoImageStack : ImageStack :=
  ImageStack.ofImages
    [ { width := 1, height := 1, science := [0], mask := [0], obstime := 10 },
      { width := 1, height := 1, science := [0], mask := [0], obstime := 11 } ]

/-- C6: on a stack of `N = 2` images the index `2` is outside `[0, N)`, yet
none of the three accessors raises: the C++ guard `index > images.size()`
should be `index >= images.size()`, so `index = N` slips through to an
out-of-bounds `images[N]` read. -/
theorem imageStack_guard_misses_index_eq_count :
    (2 : ℤ) ≥ (twoImageStack.img_count : ℤ) ∧
    (twoImageStack.get_single_image 2).isOk = true ∧
    (twoImageStack.get_obstime 2).isOk = true ∧
    (twoImageStack.get_zeroed_time 2).isOk = true := by
  decide

/-- C7: while the data ownership flag marks the data as on the accelerator,
every call to `get_trajectory`, `set_trajectory` or `get_list` raises (either
the index guard or the `Data on GPU` guard fires), and since `set_trajectory`
produces a new state only in the `.ok` case, the stored list is unchanged by
the failed call. -/
theorem trajectoryList_on_gpu_all_fail (tl : TrajectoryList) (index : ℤ) (v : Trajectory)
    (hgpu : tl.data_on_gpu = true) :
    (∃ e, tl.get_trajectory index = .error e) ∧
    (∃ e, tl.set_trajectory index v = .error e) ∧
    (∃ e, tl.get_list = .error e) := by
  refine ⟨?_, ?_, ?_⟩
  · by_cases h : index < 0 ∨ tl.max_size < index
    · exact ⟨"Index out of bounds.", by simp [TrajectoryList.get_trajectory, h]⟩
    · exact ⟨"Data on GPU", by simp [TrajectoryList.get_trajectory, h, hgpu]⟩
  · by_cases h : index < 0 ∨ tl.max_size < index
    · exact ⟨"Index out of bounds.", by simp [TrajectoryList.set_trajectory, h]⟩
    · exact ⟨"Data on GPU", by simp [TrajectoryList.set_trajectory, h, hgpu]⟩
  · exact ⟨"Data on GPU", by simp [TrajectoryList.get_list, hgpu]⟩

/-- Concrete on-accelerator trajectory list. -/
def tlOnGpu : TrajectoryList := { max_size := 10, data_on_gpu := true, cpu_list := [tLowObs] }

/-- C7 witness: the three accessors all fail on a concrete on-accelerator
list. -/
theorem trajectoryList_on_gpu_all_fail_witness :
    (∃ e, tlOnGpu.get_trajectory 0 = .error e) ∧
    (∃ e, tlOnGpu.set_trajectory 0 tHighObs = .error e) ∧
    (∃ e, tlOnGpu.get_list = .error e) :=
  trajectoryList_on_gpu_all_fail tlOnGpu 0 tHighObs rfl

/-- C10: `get_results` raises exactly when `start` is negative, and for
`0 ≤ start ≤ size` (and a non-negative `count`) it returns the slice starting
at `start` of length `min count (size - start)`: an over-long `count` is
clamped to the end of the list rather than raising. -/
theorem get_results_spec (results : List Trajectory) (start count : ℤ)
    (hcount : 0 ≤ count) :
    ((get_results results start count).isOk = false ↔ start < 0) ∧
    (0 ≤ start → start ≤ (results.length : ℤ) →
      get_results results start count =
        .ok ((results.drop start.toNat).take (min count ((results.length : ℤ) - start)).toNat)) := by
  constructor
  · by_cases hs : start < 0
    · simp [get_results, hs, Except.isOk, Except.toBool]
    · simp [get_results, hs, Except.isOk, Except.toBool]
  · intro hs hle
    have hs' : ¬ start < 0 := not_lt.mpr hs
    by_cases hclamp : start + count < 0 ∨ (results.length : ℤ) ≤ start + count
    · have hge : (results.length : ℤ) ≤ start + count := by
        rcases hclamp with h | h
        · omega
        · exact h
      have hmin : min count ((results.length : ℤ) - start) = (results.length : ℤ) - start := by
        omega
      simp [get_results, hclamp, hs', hmin]
    · have hlt : start + count < (results.length : ℤ) := by
        push_neg at hclamp
        exact hclamp.2
      have hmin : min count ((results.length : ℤ) - start) = count := by
        omega
      simp [get_results, hclamp, hs', hmin]

/-- C10 witness: on a two-element result list, `get_results 1 5` clamps the
over-long count and returns the final element without raising; the error
branch is characterised by `start < 0`, which fails here. -/
theorem get_results_spec_witness :
    ((get_results [tLowObs, tHighObs] 1 5).isOk = false ↔ (1 : ℤ) < 0) ∧
    get_results [tLowObs, tHighObs] 1 5 = .ok [tHighObs] := by
  refine ⟨(get_results_spec [tLowObs, tHighObs] 1 5 (by decide)).1, ?_⟩
  have h := (get_results_spec [tLowObs, tHighObs] 1 5 (by decide)).2 (by decide) (by decide)
  simpa using h

/-- Per-pixel mask counter of `ImageStack::make_global_mask`
(`image_stack.cpp` lines 44-53): for pixel `p`, the loop over the images
increments the counter whenever `flags & int(mask[p])` is non-zero. -/
def maskCountAt (s : ImageStack) (flags : ℤ) (p : ℕ) : ℤ :=
  s.images.foldl (fun c img => if Int.land flags (img.mask.getD p 0) ≠ 0 then c + 1 else c) 0

/-- `ImageStack::make_global_mask` (`image_stack.cpp` lines 37-62): a
`RawImage` of the stack dimensions whose pixel `p` is
`counts[p] < threshold ? 0.0 : 1.0`. -/
def ImageStack.make_global_mask (s : ImageStack) (flags threshold : ℤ) : RawImage :=
  { width := s.get_width,
    height := s.get_height,
    pixels := (List.range s.get_npixels).map
      (fun p => if maskCountAt s flags p < threshold then (0 : ℚ) else 1) }

/-- The folded counter equals the number of images whose mask at `p` has a
non-zero bitwise AND with `flags`. -/
theorem maskCountAt_eq_countP (s : ImageStack) (flags : ℤ) (p : ℕ) :
    maskCountAt s flags p =
      (s.images.countP (fun img => decide (Int.land flags (img.mask.getD p 0) ≠ 0)) : ℕ) := by
  unfold maskCountAt
  suffices h : ∀ (l : List LayeredImage) (c : ℤ),
      l.foldl (fun c img => if Int.land flags (img.mask.getD p 0) ≠ 0 then c + 1 else c) c =
        c + (l.countP (fun img => decide (Int.land flags (img.mask.getD p 0) ≠ 0)) : ℕ) by
    simpa using h s.images 0
  intro l
  induction l with
  | nil => intro c; simp
  | cons img rest ih =>
    intro c
    rw [List.foldl_cons, List.countP_cons]
    by_cases hm : Int.land flags (img.mask.getD p 0) ≠ 0
    · rw [if_pos hm, ih (c + 1)]
      have hdec : decide (Int.land flags (img.mask.getD p 0) ≠ 0) = true := by simpa using hm
      rw [hdec]
      simp only [if_pos trivial]
      push_cast
      ring
    · rw [if_neg hm, ih c]
      have hdec : decide (Int.land flags (img.mask.getD p 0) ≠ 0) = false := by simpa using hm
      rw [hdec]
      simp

/-- C2: `make_global_mask` returns a `RawImage` with the stack width and
height whose pixel `p` (for every in-range `p`) is 1 exactly when the number
of images whose mask at `p` has a non-zero bitwise AND with `flags` is at
least `threshold`, and 0 otherwise. -/
theorem make_global_mask_spec (s : ImageStack) (flags threshold : ℤ) (p : ℕ)
    (hp : p < s.get_npixels) :
    (s.make_global_mask flags threshold).width = s.get_width ∧
    (s.make_global_mask flags threshold).height = s.get_height ∧
    (s.make_global_mask flags threshold).pixels.length = s.get_npixels ∧
    (s.make_global_mask flags threshold).pixels.getD p 0 =
      (if threshold ≤ ((s.images.countP
          (fun img => decide (Int.land flags (img.mask.getD p 0) ≠ 0)) : ℕ) : ℤ)
        then (1 : ℚ) else 0) := by
  refine ⟨rfl, rfl, by simp [ImageStack.make_global_mask], ?_⟩
  have hlen : p < ((List.range s.get_npixels).map
      (fun p => if maskCountAt s flags p < threshold then (0 : ℚ) else 1)).length := by
    simpa using hp
  unfold ImageStack.make_global_mask
  rw [List.getD_eq_getElem _ _ hlen, List.getElem_map, List.getElem_range,
    maskCountAt_eq_countP]
  by_cases hth : threshold ≤ ((s.images.countP
      (fun img => decide (Int.land flags (img.mask.getD p 0) ≠ 0)) : ℕ) : ℤ)
  · rw [if_pos hth, if_neg (not_lt.mpr hth)]
  · rw [if_neg hth, if_pos (lt_of_not_le hth)]

/-- Stack used in the C2 witness: two one-pixel images whose mask values 1 and
2 both share a bit with `flags = 3`. -/
def maskWitnessStack : ImageStack :=
  ImageStack.ofImages
    [ { width := 1, height := 1, science := [0], mask := [1], obstime := 0 },
      { width := 1, height := 1, science := [0], mask := [2], obstime := 1 } ]

/-- C2 witness: with `flags = 3` and `threshold = 2`, both one-pixel masks hit
the flags, so pixel 0 of the global mask is 1. -/
theorem make_global_mask_spec_witness :
    (maskWitnessStack.make_global_mask 3 2).width = maskWitnessStack.get_width ∧
    (maskWitnessStack.make_global_mask 3 2).height = maskWitnessStack.get_height ∧
    (maskWitnessStack.make_global_mask 3 2).pixels.length = maskWitnessStack.get_npixels ∧
    (maskWitnessStack.make_global_mask 3 2).pixels.getD 0 0 =
      (if (2 : ℤ) ≤ ((maskWitnessStack.images.countP
          (fun img => decide (Int.land 3 (img.mask.getD 0 0) ≠ 0)) : ℕ) : ℤ)
        then (1 : ℚ) else 0) :=
  make_global_mask_spec maskWitnessStack 3 2 0 (by decide)

/-- Truncation toward zero, the semantics of the C++ cast `int(x)` applied to
a non-integral float: `⌊x⌋` for `x ≥ 0` and `⌈x⌉ = -⌊-x⌋` for `x < 0`. -/
def cppTruncToInt (q : ℚ) : ℤ := if 0 ≤ q then ⌊q⌋ else -⌊-q⌋

/-- The pixel sampled by `KBMOSearch::createCurves` (`KBMOSearch.cpp` lines
517-533, barycentric correction disabled): the C++ reads
`imgs[i].get_pixel(t.x + int(times[i] * t.x_vel + 0.5), t.y + int(times[i] * t.y_vel + 0.5))`. -/
def sampledPixel (t : Trajectory) (tau : ℚ) : ℤ × ℤ :=
  (t.x + cppTruncToInt (tau * t.vx + 1 / 2), t.y + cppTruncToInt (tau * t.vy + 1 / 2))

/-- `KBMOSearch::createCurves` (`KBMOSearch.cpp` lines 502-535, barycentric
correction disabled): each image is modelled as its `get_pixel` function
(total, returning `NO_DATA` out of bounds, as `RawImage::get_pixel` does);
pixel values equal to `NO_DATA` are replaced by 0. -/
def createCurves (t : Trajectory) (imgs : List ((ℤ × ℤ) → ℚ)) (times : List ℚ) : List ℚ :=
  (imgs.zip times).map (fun it =>
    let pix_val := it.1 (sampledPixel t it.2)
    if pix_val = NO_DATA then 0 else pix_val)

/-- Trajectory with a negative x-velocity used in the C3 counterexample. -/
def negOffsetTraj : Trajectory :=
  { x := 0, y := 0, vx := -3/4, vy := 0, lh := 0, flux := 0, obs_count := 0 }

/-- C3 counterexample: for the trajectory `x = 0, vx = -3/4` at zeroed time
`τ = 1`, the code samples pixel x-coordinate `0 + int(-3/4 + 1/2) = 0`, while
round-to-nearest of the predicted position gives `round(-3/4) = -1`; the
claimed formula fails for negative predicted coordinates. -/
theorem sampledPixel_not_round :
    sampledPixel negOffsetTraj 1 ≠
      (round ((0 : ℚ) + (-3/4) * 1), round ((0 : ℚ) + 0 * 1)) := by
  have h1 : sampledPixel negOffsetTraj 1 = (0, 0) := by
    unfold sampledPixel cppTruncToInt negOffsetTraj
    norm_num
  have h2 : round ((0 : ℚ) + (-3/4) * 1) = -1 := by
    rw [round_eq, show ((0 : ℚ) + (-3/4) * 1 + 1 / 2) = -1/4 by norm_num, Int.floor_eq_iff]
    norm_num
  have h3 : round ((0 : ℚ) + 0 * 1) = 0 := by
    rw [round_eq]
    norm_num
  rw [h1, h2, h3]
  decide

/-- C3 (amended): the sampled pixel is
`(x + trunc(vx·τ + 1/2), y + trunc(vy·τ + 1/2))` with truncation toward zero;
this coincides with round-to-nearest of the predicted position whenever the
shifted offsets `vx·τ + 1/2` and `vy·τ + 1/2` are non-negative (in particular
for non-negative predicted offsets), but not in general. -/
theorem sampledPixel_round_of_nonneg (t : Trajectory) (tau : ℚ)
    (hx : 0 ≤ tau * t.vx + 1 / 2) (hy : 0 ≤ tau * t.vy + 1 / 2) :
    sampledPixel t tau = (round ((t.x : ℚ) + t.vx * tau), round ((t.y : ℚ) + t.vy * tau)) := by
  unfold sampledPixel cppTruncToInt
  rw [if_pos hx, if_pos hy]
  have hroundx : round ((t.x : ℚ) + t.vx * tau) = t.x + ⌊tau * t.vx + 1 / 2⌋ := by
    rw [round_int_add, round_eq, mul_comm]
  have hroundy : round ((t.y : ℚ) + t.vy * tau) = t.y + ⌊tau * t.vy + 1 / 2⌋ := by
    rw [round_int_add, round_eq, mul_comm]
  rw [hroundx, hroundy]

/-- C3 witness: for `vx = 1/2, vy = 1/4` at `τ = 1` both shifted offsets are
non-negative and the sampled pixel agrees with round-to-nearest. -/
theorem sampledPixel_round_of_nonneg_witness :
    sampledPixel { x := 0, y := 0, vx := 1/2, vy := 1/4, lh := 0, flux := 0, obs_count := 0 } 1 =
      (round ((0 : ℚ) + (1/2) * 1), round ((0 : ℚ) + (1/4) * 1)) :=
  sampledPixel_round_of_nonneg
    { x := 0, y := 0, vx := 1/2, vy := 1/4, lh := 0, flux := 0, obs_count := 0 } 1
    (by norm_num) (by norm_num)

/-- `KBMOSearch::createSearchList` (`KBMOSearch.cpp` lines 224-246). The C++
fills `search_list[a * velocity_steps + v]` with velocity components
`(cos(angles[a]) * velocities[v], sin(angles[a]) * velocities[v])` where
`angles[a] = min_ang + a * (max_ang - min_ang) / angle_steps` and
`velocities[v] = min_vel + v * (max_vel - min_vel) / velocity_steps`; every
slot `i` is written exactly once, by the pass with `a = i / velocity_steps`
and `v = i % velocity_steps`. `cos` and `sin` are library functions outside
the embedding and enter as parameters. -/
def createSearchList (cosf sinf : ℚ → ℚ) (angle_steps velocity_steps : ℕ)
    (min_ang max_ang min_vel max_vel : ℚ) : List (ℚ × ℚ) :=
  let ang_stepsize : ℚ := (max_ang - min_ang) / (angle_steps : ℚ)
  let vel_stepsize : ℚ := (max_vel - min_vel) / (velocity_steps : ℚ)
  (List.range (angle_steps * velocity_steps)).map (fun i =>
    (cosf (min_ang + ((i / velocity_steps : ℕ) : ℚ) * ang_stepsize) *
       (min_vel + ((i % velocity_steps : ℕ) : ℚ) * vel_stepsize),
     sinf (min_ang + ((i / velocity_steps : ℕ) : ℚ) * ang_stepsize) *
       (min_vel + ((i % velocity_steps : ℕ) : ℚ) * vel_stepsize)))

/-- C4: the candidate list has exactly `A * B` entries, and entry `a * B + b`
has velocity components `(cos(α_a) * v_b, sin(α_a) * v_b)` with
`α_a = α_min + a * (α_max - α_min) / A` and
`v_b = v_min + b * (v_max - v_min) / B`. -/
theorem createSearchList_spec (cosf sinf : ℚ → ℚ) (A B : ℕ)
    (min_ang max_ang min_vel max_vel : ℚ) (a b : ℕ) (ha : a < A) (hb : b < B) :
    (createSearchList cosf sinf A B min_ang max_ang min_vel max_vel).length = A * B ∧
    (createSearchList cosf sinf A B min_ang max_ang min_vel max_vel)[a * B + b]? =
      some (cosf (min_ang + (a : ℚ) * (max_ang - min_ang) / (A : ℚ)) *
              (min_vel + (b : ℚ) * (max_vel - min_vel) / (B : ℚ)),
            sinf (min_ang + (a : ℚ) * (max_ang - min_ang) / (A : ℚ)) *
              (min_vel + (b : ℚ) * (max_vel - min_vel) / (B : ℚ))) := by
  have hB : 0 < B := Nat.pos_of_ne_zero (by omega)
  have hidx : a * B + b < A * B := by
    calc a * B + b < a * B + B := by omega
    _ = (a + 1) * B := by ring
    _ ≤ A * B := Nat.mul_le_mul_right B (by omega)
  have hdiv : (a * B + b) / B = a := by
    rw [show a * B + b = b + B * a by ring, Nat.add_mul_div_left b a hB,
      Nat.div_eq_of_lt hb, Nat.zero_add]
  have hmod : (a * B + b) % B = b := Nat.mul_add_mod_of_lt hb
  constructor
  · unfold createSearchList
    rw [List.length_map, List.length_range]
  · unfold createSearchList
    rw [List.getElem?_map, List.getElem?_range hidx]
    simp only [Option.map_some', hdiv, hmod]
    rw [mul_div_assoc, mul_div_assoc]

/-- C4 witness: with `A = 2, B = 3`, entry `1 * 3 + 2` carries the claimed
velocity components for concrete stand-ins for cosine and sine. -/
theorem createSearchList_spec_witness :
    (createSearchList (fun q => q + 1) (fun q => q * 2) 2 3 0 1 0 1).length = 2 * 3 ∧
    (createSearchList (fun q => q + 1) (fun q => q * 2) 2 3 0 1 0 1)[1 * 3 + 2]? =
      some ((fun (q : ℚ) => q + 1) ((0 : ℚ) + (1 : ℚ) * (1 - 0) / (2 : ℚ)) *
              ((0 : ℚ) + (2 : ℚ) * (1 - 0) / (3 : ℚ)),
            (fun (q : ℚ) => q * 2) ((0 : ℚ) + (1 : ℚ) * (1 - 0) / (2 : ℚ)) *
              ((0 : ℚ) + (2 : ℚ) * (1 - 0) / (3 : ℚ))) :=
  createSearchList_spec (fun q => q + 1) (fun q => q * 2) 2 3 0 1 0 1 1 2
    (by decide) (by decide)

/-- Two layered images with different dimensions, used to exhibit an
ImageStack that violates the shared-dimensions invariant. -/
def wideImage : LayeredImage :=
  { width := 2, height := 2, science := [0, 0, 0, 0], mask := [0, 0, 0, 0], obstime := 0 }

def narrowImage : LayeredImage :=
  { width := 3, height := 1, science := [0, 0, 0], mask := [0, 0, 0], obstime := 1 }

/-- C8 counterexample: the constructor accepts a list whose images have
different dimensions — it does not fail, and the resulting stack contains an
image whose width differs from the stack width (that of image 0), so the
claimed invariant does not hold for every ImageStack. -/
theorem ofImages_accepts_mismatched_dimensions :
    ((ImageStack.ofImages [wideImage, narrowImage]).images.getD 1 default).width ≠
      (ImageStack.ofImages [wideImage, narrowImage]).get_width := by
  decide

/-- C8 (amended): the `ImageStack` constructor stores the given LayeredImages
unchanged and performs no dimension validation; the stack width and height are
simply those of the first image; stacks whose images disagree in dimensions
are constructible (the mismatched two-image stack below is a value of the
type), hence the shared-dimensions invariant is the caller's responsibility. -/
theorem ofImages_no_validation :
    (∀ imgs, (ImageStack.ofImages imgs).images = imgs) ∧
    (∀ img0 rest, (ImageStack.ofImages (img0 :: rest)).get_width = img0.width ∧
      (ImageStack.ofImages (img0 :: rest)).get_height = img0.height) ∧
    ((ImageStack.ofImages [wideImage, narrowImage]).images.getD 1 default).width = 3 ∧
    (ImageStack.ofImages [wideImage, narrowImage]).get_width = 2 := by
  exact ⟨fun imgs => rfl, fun img0 rest => ⟨rfl, rfl⟩, rfl, rfl⟩

/-- Image moments record (`common.h` / spec §4.1). -/
structure ImageMoments where
  m00 : ℚ
  m01 : ℚ
  m10 : ℚ
  m11 : ℚ
  m02 : ℚ
  m20 : ℚ
deriving DecidableEq, Repr, Inhabited

/-- Stamp coadd type (`common.h`, exported in `bindings.cpp` as SUM, MEAN,
MEDIAN). A C++ enum variable can hold a value outside the three enumerators
(the switch in `get_coadded_stamps_cpu` has a default branch for exactly that
case); all such values are collapsed into `STAMP_INVALID`. -/
inductive StampType where
  | STAMP_SUM
  | STAMP_MEAN
  | STAMP_MEDIAN
  | STAMP_INVALID
deriving DecidableEq, Repr, Inhabited

/-- Stamp parameters (`common.h` / spec §3). -/
structure StampParameters where
  radius : ℤ
  stamp_type : StampType
  do_filtering : Bool
  peak_offset_x : ℚ
  peak_offset_y : ℚ
  center_thresh : ℚ
  m01_limit : ℚ
  m02_limit : ℚ
  m10_limit : ℚ
  m11_limit : ℚ
  m20_limit : ℚ
deriving DecidableEq, Repr, Inhabited

/-- Collaborators used by `stamp_creator.cpp` that are implemented in
repository files not among the given sources (`raw_image.cpp`,
`layered_image.cpp`, `common.h`): per-image science-stamp extraction
(`get_science().create_stamp` at the predicted trajectory position), the three
coadd constructors, `RawImage::find_peak` and
`RawImage::find_central_moments`. The claims hold for every behaviour of
these, so they enter the embedding as parameters. -/
structure SearchExt where
  science_stamp : LayeredImage → Trajectory → ℚ → ℤ → Bool → RawImage
  create_median_image : List RawImage → RawImage
  create_mean_image : List RawImage → RawImage
  create_summed_image : List RawImage → RawImage
  find_peak : RawImage → ℤ × ℤ
  find_central_moments : RawImage → ImageMoments

/-- Peak-position rejection test of `StampCreator::filter_stamp`
(`stamp_creator.cpp` lines 124-128): reject when
`abs(idx.i - radius) >= peak_offset_x` or `abs(idx.j - radius) >= peak_offset_y`. -/
def peakCond (ext : SearchExt) (img : RawImage) (params : StampParameters) : Prop :=
  params.peak_offset_x ≤ ((|(ext.find_peak img).1 - params.radius| : ℤ) : ℚ) ∨
  params.peak_offset_y ≤ ((|(ext.find_peak img).2 - params.radius| : ℤ) : ℚ)

instance (ext : SearchExt) (img : RawImage) (params : StampParameters) :
    Decidable (peakCond ext img params) := by
  unfold peakCond
  infer_instance

/-- Central-flux rejection test of `StampCreator::filter_stamp`
(`stamp_creator.cpp` lines 131-142): when `center_thresh > 0`, reject when the
peak pixel value over the sum of the first `stamp_width²` pixels is below
`center_thresh`. -/
def centerCond (ext : SearchExt) (img : RawImage) (params : StampParameters) : Prop :=
  0 < params.center_thresh ∧
    img.pixels.getD ((ext.find_peak img).2 * (2 * params.radius + 1) +
        (ext.find_peak img).1).toNat 0 /
      (img.pixels.take ((2 * params.radius + 1) * (2 * params.radius + 1)).toNat).sum <
    params.center_thresh

instance (ext : SearchExt) (img : RawImage) (params : StampParameters) :
    Decidable (centerCond ext img params) := by
  unfold centerCond
  infer_instance

/-- Image-moments rejection test of `StampCreator::filter_stamp`
(`stamp_creator.cpp` lines 145-150). -/
def momentsCond (ext : SearchExt) (img : RawImage) (params : StampParameters) : Prop :=
  params.m01_limit ≤ |(ext.find_central_moments img).m01| ∨
  params.m10_limit ≤ |(ext.find_central_moments img).m10| ∨
  params.m11_limit ≤ |(ext.find_central_moments img).m11| ∨
  params.m02_limit ≤ (ext.find_central_moments img).m02 ∨
  params.m20_limit ≤ (ext.find_central_moments img).m20

instance (ext : SearchExt) (img : RawImage) (params : StampParameters) :
    Decidable (momentsCond ext img params) := by
  unfold momentsCond
  infer_instance

/-- `StampCreator::filter_stamp` (`stamp_creator.cpp` lines 115-153): the
three early-return tests in source order. -/
def filter_stamp (ext : SearchExt) (img : RawImage) (params : StampParameters) : Bool :=
  if peakCond ext img params then true
  else if centerCond ext img params then true
  else if momentsCond ext img params then true
  else false

/-- Zeroed time used inside the stamp loop (`stack.get_zeroed_time(i)` with
`0 ≤ i < img_count`, where the guard never fires). -/
def ImageStack.zeroed_time_at (s : ImageStack) (i : ℕ) : ℚ :=
  (s.images.getD i default).obstime - (s.images.getD 0 default).obstime

/-- `StampCreator::create_stamps` (`stamp_creator.cpp` lines 13-32): checks
the `use_index` size, then collects one science stamp per selected image at
the trajectory position for the image's zeroed time. -/
def create_stamps (ext : SearchExt) (stack : ImageStack) (trj : Trajectory) (radius : ℤ)
    (keep_no_data : Bool) (use_index : List Bool) : Except String (List RawImage) :=
  if 0 < use_index.length ∧ use_index.length ≠ stack.images.length then
    .error "Wrong size use_index passed into create_stamps()"
  else
    .ok ((List.range stack.images.length).filterMap (fun i =>
      if use_index.length = 0 ∨ use_index.getD i false then
        some (ext.science_stamp (stack.images.getD i default) trj (stack.zeroed_time_at i)
          radius keep_no_data)
      else none))

/-- The coadd switch of `StampCreator::get_coadded_stamps_cpu`
(`stamp_creator.cpp` lines 89-102): median/mean/sum coadd or the
`Invalid stamp coadd type.` error. -/
def coaddOf (ext : SearchExt) (stamp_type : StampType) (stamps : List RawImage) :
    Except String RawImage :=
  match stamp_type with
  | .STAMP_MEDIAN => .ok (ext.create_median_image stamps)
  | .STAMP_MEAN => .ok (ext.create_mean_image stamps)
  | .STAMP_SUM => .ok (ext.create_summed_image stamps)
  | .STAMP_INVALID => .error "Invalid stamp coadd type."

/-- The 1×1 replacement stamp `RawImage(1, 1, NO_DATA)`
(`stamp_creator.cpp` line 106). -/
def noDataStamp : RawImage := { width := 1, height := 1, pixels := [NO_DATA] }

/-- Body of one iteration of the loop in `StampCreator::get_coadded_stamps_cpu`
(`stamp_creator.cpp` lines 85-110): build the stamps for trajectory `i`, apply
the coadd switch, and replace the coadd by the 1×1 `NO_DATA` stamp when
filtering is on and `filter_stamp` rejects it. -/
def coadd_one (ext : SearchExt) (stack : ImageStack) (t_array : List Trajectory)
    (use_index_vect : List (List Bool)) (params : StampParameters) (i : ℕ) :
    Except String RawImage := do
  let stamps ← create_stamps ext stack (t_array.getD i default) params.radius true
    (use_index_vect.getD i [])
  let coadd ← coaddOf ext params.stamp_type stamps
  if params.do_filtering && filter_stamp ext coadd params then pure noDataStamp
  else pure coadd

/-- `StampCreator::get_coadded_stamps_cpu` (`stamp_creator.cpp` lines 78-113):
the loop over the trajectory indices. -/
def get_coadded_stamps_cpu (ext : SearchExt) (stack : ImageStack) (t_array : List Trajectory)
    (use_index_vect : List (List Bool)) (params : StampParameters) :
    Except String (List RawImage) :=
  (List.range t_array.length).mapM (coadd_one ext stack t_array use_index_vect params)

/-- The warning text of `StampCreator::get_coadded_stamps` in a build without
accelerator support (`stamp_creator.cpp` lines 71-72). -/
def gpu_warning : String := "GPU is not enabled. Performing co-adds on the CPU."

/-- `StampCreator::get_coadded_stamps` (`stamp_creator.cpp` lines 63-76) in a
build without accelerator support: when `use_gpu` is set the function only
logs a warning and control falls through to the CPU path, which is also the
path taken when `use_gpu` is not set. The emitted warnings are returned
alongside the result. -/
def get_coadded_stamps (ext : SearchExt) (stack : ImageStack) (t_array : List Trajectory)
    (use_index_vect : List (List Bool)) (params : StampParameters) (use_gpu : Bool) :
    List String × Except String (List RawImage) :=
  ((if use_gpu then [gpu_warning] else []),
   get_coadded_stamps_cpu ext stack t_array use_index_vect params)

instance {ε α : Type} [DecidableEq ε] [DecidableEq α] : DecidableEq (Except ε α) := fun a b =>
  match a, b with
  | .error e, .error f =>
    if h : e = f then .isTrue (by rw [h]) else .isFalse (fun hh => by cases hh; exact h rfl)
  | .error _, .ok _ => .isFalse (fun hh => by cases hh)
  | .ok _, .error _ => .isFalse (fun hh => by cases hh)
  | .ok x, .ok y =>
    if h : x = y then .isTrue (by rw [h]) else .isFalse (fun hh => by cases hh; exact h rfl)

/-- Helper: a successful `mapM` over `Except` yields a list of the same length
whose entries are the successful results of the function, position by
position. -/
theorem mapM_except_ok {ε α β : Type} (f : α → Except ε β) :
    ∀ (l : List α) (out : List β), l.mapM f = Except.ok out →
      out.length = l.length ∧ ∀ i (h : i < l.length), out[i]? = (f (l.get ⟨i, h⟩)).toOption := by
  intro l
  induction l with
  | nil =>
    intro out hout
    rw [List.mapM_nil] at hout
    have hout2 : out = [] := by
      have : (Except.ok [] : Except ε (List β)) = Except.ok out := hout
      cases this
      rfl
    subst hout2
    exact ⟨rfl, fun i h => absurd h (by simp)⟩
  | cons a l ih =>
    intro out hout
    rw [List.mapM_cons] at hout
    cases hfa : f a with
    | error e =>
      rw [hfa] at hout
      simp only [Bind.bind, Except.bind] at hout
      cases hout
    | ok b =>
      rw [hfa] at hout
      cases hrest : l.mapM f with
      | error e =>
        rw [hrest] at hout
        simp only [Bind.bind, Except.bind] at hout
        cases hout
      | ok bs =>
        rw [hrest] at hout
        simp only [Bind.bind, Except.bind, Pure.pure, Except.pure] at hout
        have hout2 : out = b :: bs := by
          cases hout
          rfl
        subst hout2
        obtain ⟨hlen, hidx⟩ := ih bs hrest
        refine ⟨by simp [hlen], fun i h => ?_⟩
        cases i with
        | zero => simp [hfa, Except.toOption]
        | succ j =>
          have hj : j < l.length := by simpa using h
          have := hidx j hj
          simpa using this

/-- C5 (amended): a coadded stamp with filtering enabled is rejected if and
only if (1) the argmax pixel's offset from the stamp centre is at least
`peak_offset_x` or at least `peak_offset_y` (rejection fires already at
equality, not only strictly beyond the limit), or (2) `center_thresh > 0` and
the peak pixel value over the pixel sum is below `center_thresh`, or (3) one
of the moment limits is met; and every rejected coadd is replaced in the
output vector by the 1×1 `NO_DATA` stamp. -/
theorem filter_stamp_spec (ext : SearchExt) (img : RawImage) (params : StampParameters)
    (stack : ImageStack) (t_array : List Trajectory) (use_index_vect : List (List Bool))
    (i : ℕ) (c : RawImage) (out : List RawImage) :
    (filter_stamp ext img params = true ↔
      (peakCond ext img params ∨ centerCond ext img params ∨ momentsCond ext img params)) ∧
    (params.do_filtering = true →
      (create_stamps ext stack (t_array.getD i default) params.radius true
          (use_index_vect.getD i [])).bind (coaddOf ext params.stamp_type) = .ok c →
      filter_stamp ext c params = true →
      coadd_one ext stack t_array use_index_vect params i = .ok noDataStamp) ∧
    (get_coadded_stamps_cpu ext stack t_array use_index_vect params = .ok out →
      out.length = t_array.length ∧ ∀ j (h : j < t_array.length),
        out[j]? = (coadd_one ext stack t_array use_index_vect params j).toOption) := by
  refine ⟨?_, ?_, ?_⟩
  · unfold filter_stamp
    by_cases h1 : peakCond ext img params
    · simp [h1]
    · by_cases h2 : centerCond ext img params
      · simp [h1, h2]
      · by_cases h3 : momentsCond ext img params
        · simp [h1, h2, h3]
        · simp [h1, h2, h3]
  · intro hdf hok hfil
    unfold coadd_one
    cases hcs : create_stamps ext stack (t_array.getD i default) params.radius true
        (use_index_vect.getD i []) with
    | error e =>
      rw [hcs] at hok
      simp only [Except.bind] at hok
      cases hok
    | ok stamps =>
      rw [hcs] at hok
      simp only [Except.bind] at hok
      simp only [Bind.bind, Except.bind, hok, hdf, hfil, Bool.true_and, if_pos]
      rfl
  · intro hout
    unfold get_coadded_stamps_cpu at hout
    obtain ⟨hlen, hidx⟩ :=
      mapM_except_ok (coadd_one ext stack t_array use_index_vect params) _ out hout
    refine ⟨by simpa using hlen, fun j h => ?_⟩
    have hj : j < (List.range t_array.length).length := by simpa using h
    have := hidx j hj
    simpa [List.getElem_range] using this

/-- The rejection condition exactly as the claim words it, with a strict
reading of the peak-offset test: the argmax offset must strictly exceed
`peak_offset_x` / `peak_offset_y`. -/
def claimedRejectCond (ext : SearchExt) (img : RawImage) (params : StampParameters) : Prop :=
  (params.peak_offset_x < ((|(ext.find_peak img).1 - params.radius| : ℤ) : ℚ) ∨
   params.peak_offset_y < ((|(ext.find_peak img).2 - params.radius| : ℤ) : ℚ)) ∨
  centerCond ext img params ∨ momentsCond ext img params

instance (ext : SearchExt) (img : RawImage) (params : StampParameters) :
    Decidable (claimedRejectCond ext img params) := by
  unfold claimedRejectCond
  infer_instance

/-- A 3×3 all-zero stamp for the C5 instances. -/
def zeroStamp3 : RawImage :=
  { width := 3, height := 3, pixels := [0, 0, 0, 0, 0, 0, 0, 0, 0] }

/-- Concrete collaborator functions for the C5 instances: the peak is
reported at `(i, j) = (0, 1)` and all moments are zero. -/
def cexExt : SearchExt :=
  { science_stamp := fun _ _ _ _ _ => zeroStamp3,
    create_median_image := fun _ => zeroStamp3,
    create_mean_image := fun _ => zeroStamp3,
    create_summed_image := fun _ => zeroStamp3,
    find_peak := fun _ => (0, 1),
    find_central_moments := fun _ =>
      { m00 := 0, m01 := 0, m10 := 0, m11 := 0, m02 := 0, m20 := 0 } }

/-- Filtering parameters whose peak-offset limit is hit exactly at the
boundary: radius 1 (3×3 stamp), `peak_offset_x = 1`, and an argmax at
`i = 0`, so the offset `|0 - 1| = 1` equals the limit. -/
def cexParams : StampParameters :=
  { radius := 1, stamp_type := .STAMP_SUM, do_filtering := true,
    peak_offset_x := 1, peak_offset_y := 5, center_thresh := 0,
    m01_limit := 1, m02_limit := 1, m10_limit := 1, m11_limit := 1, m20_limit := 1 }

/-- C5 counterexample: on the boundary input the code rejects the stamp
(`abs(idx.i - radius) >= peak_offset_x` with `1 >= 1`), while the claimed
condition — offset strictly exceeding `peak_offset_x`/`peak_offset_y`, centre
flux below threshold, or a moment limit met — is false, so the claimed
equivalence fails. -/
theorem filter_stamp_boundary_cex :
    filter_stamp cexExt zeroStamp3 cexParams = true ∧
    ¬ claimedRejectCond cexExt zeroStamp3 cexParams := by
  decide

/-- One-image stack used by the C5 witness and the C9 counterexample. -/
def oneImageStack : ImageStack := ImageStack.ofImages [wideImage]

/-- C5 witness: at the concrete boundary instance, the rejection equivalence
is instantiated, the loop body replaces the rejected coadd by the 1×1
`NO_DATA` stamp, and position 0 of the successful output vector carries that
replacement. -/
theorem filter_stamp_spec_witness :
    (filter_stamp cexExt zeroStamp3 cexParams = true ↔
      (peakCond cexExt zeroStamp3 cexParams ∨ centerCond cexExt zeroStamp3 cexParams ∨
        momentsCond cexExt zeroStamp3 cexParams)) ∧
    coadd_one cexExt oneImageStack [tLowObs] [[]] cexParams 0 = .ok noDataStamp ∧
    [noDataStamp].length = [tLowObs].length ∧
    [noDataStamp][0]? = (coadd_one cexExt oneImageStack [tLowObs] [[]] cexParams 0).toOption := by
  have h := filter_stamp_spec cexExt zeroStamp3 cexParams oneImageStack [tLowObs] [[]] 0
    zeroStamp3 [noDataStamp]
  refine ⟨h.1, ?_, ?_, ?_⟩
  · exact h.2.1 rfl rfl rfl
  · exact (h.2.2 rfl).1
  · exact (h.2.2 rfl).2 0 (by decide)

/-- C9 (amended): in a build without accelerator support, calling
`get_coadded_stamps` with `use_gpu = true` emits the fallback warning and
behaves exactly as the CPU path: it produces the very same result as
`use_gpu = false` — the same vector of coadds when the CPU path succeeds, and
the same error when the CPU path raises. The `use_gpu` flag itself never
causes an error. -/
theorem get_coadded_stamps_gpu_flag_equiv (ext : SearchExt) (stack : ImageStack)
    (t_array : List Trajectory) (use_index_vect : List (List Bool))
    (params : StampParameters) :
    (get_coadded_stamps ext stack t_array use_index_vect params true).2 =
      (get_coadded_stamps ext stack t_array use_index_vect params false).2 ∧
    (get_coadded_stamps ext stack t_array use_index_vect params true).1 = [gpu_warning] ∧
    (get_coadded_stamps ext stack t_array use_index_vect params false).1 = [] :=
  ⟨rfl, rfl, rfl⟩

/-- C9 counterexample: with a `use_index` vector whose length differs from the
image count, the call with `use_gpu = true` raises (exactly as the CPU path
does), refuting the claim that it never raises. -/
theorem get_coadded_stamps_true_raises :
    (get_coadded_stamps cexExt oneImageStack [tLowObs] [[true, false]] cexParams true).2 =
      .error "Wrong size use_index passed into create_stamps()" := by
  rfl
